import Mathlib

/-!
Verification of the Sensory Profile 2 scoring and consistency-validation
engine (sensory-profile-backend).

The definitions below are a shallow embedding of the TypeScript source:

* `mapResponseToValue`, `sectionMap`, `quadrantMap`, `validateItemId`,
  `isExcludedFromScoring`, `calculateSectionScores`,
  `calculateQuadrantScores`, `calculateScores`, `getExpectedScoreRanges`
  and `validateScores` embed the scoring service module;
* `validateResponseCompleteness` and `throwIfInvalid` embed the
  corresponding static methods of the consistency validator in
  `PgResponseRepository.ts`.

Modelling conventions:

* TypeScript numbers that hold item ids, response values, and scores are
  modelled as `Int` (all arithmetic on them in the source is integral);
  the `Number.isInteger` conjunct of `validateItemId` is identically true
  under this modelling.
* `String.prototype.toLowerCase` / `trim` are modelled character-wise
  (`jsToLowerCase`, `jsTrim`): the lowercase map covers the ASCII and
  Latin-1 uppercase letters (every code point whose JavaScript lowercase
  form can meet the recognised-label alphabet, which contains the
  non-ASCII letter ã), and the trim predicate is the exact JavaScript
  whitespace set (including NBSP and the Unicode space separators).
* The JavaScript property read `responseMap[key]` consults the prototype
  chain of the object literal: `responseMapRead` models this, and
  `mapResponseToValueJS` is the faithful translation of the mapper.
  `mapResponseToValue` is its numeric restriction, exact away from the
  two all-lowercase `Object.prototype` names (see
  `mapResponseToValue_restriction`), used by the calculator embedding.
* A thrown exception is modelled with `Except String`; the `try`/`catch`
  around each response in the two calculators becomes a `match` on that
  `Except` value.
* JavaScript `Set` insertion-order deduplication is `jsSetDedup`;
  `Array.prototype.indexOf` is `jsIndexOf` (returning `-1` when absent).
* `toFixed(1)` on the completion percentage is modelled exactly over the
  rationals (`toFixed1`); for the small integer ratios that occur here
  this agrees with the IEEE-double computation in the source.
-/

/-- Keys of the TypeScript interface `SectionScores` (the 9 sections). -/
inductive SectionKey where
  | auditoryProcessing
  | visualProcessing
  | tactileProcessing
  | movementProcessing
  | bodyPositionProcessing
  | oralSensitivityProcessing
  | behavioralResponses
  | socialEmotionalResponses
  | attentionResponses

deriving instance DecidableEq for SectionKey

/-- Keys of the TypeScript interface `QuadrantScores` (the 4 quadrants). -/
inductive QuadrantKey where
  | registrationIncreased
  | sensorySeek
  | sensorySensitivity
  | sensoryAvoidance

deriving instance DecidableEq for QuadrantKey

/-- TypeScript interface `SectionScores`. -/
structure SectionScores where
  auditoryProcessing : Int
  visualProcessing : Int
  tactileProcessing : Int
  movementProcessing : Int
  bodyPositionProcessing : Int
  oralSensitivityProcessing : Int
  behavioralResponses : Int
  socialEmotionalResponses : Int
  attentionResponses : Int

deriving instance DecidableEq for SectionScores

/-- TypeScript interface `QuadrantScores`. -/
structure QuadrantScores where
  registrationIncreased : Int
  sensorySeek : Int
  sensorySensitivity : Int
  sensoryAvoidance : Int

deriving instance DecidableEq for QuadrantScores

/-- TypeScript interface `AssessmentResults`. -/
structure AssessmentResults where
  sectionScores : SectionScores
  quadrantScores : QuadrantScores
  totalItems : Int
  validResponses : Int
  invalidResponses : List String

/-- The anonymous `{ itemId: number, response: string }` record taken by the
scoring functions. -/
structure RawResponse where
  itemId : Int
  response : String

/-- Per-character model of the JavaScript lowercase conversion: the ASCII
uppercase letters and the Latin-1 uppercase letters À..Þ (excluding the
multiplication sign ×) shift down by 32, as in Unicode simple case
mapping. This covers every code point whose JavaScript lowercase form can
coincide with a character of the recognised labels or of the reachable
`Object.prototype` names (in particular Ã lowers to the ã of
"não se aplica"); all other characters are classification-neutral. -/
def jsCharToLower (c : Char) : Char :=
  if 'A' ≤ c ∧ c ≤ 'Z' then Char.ofNat (c.toNat + 32)
  else if 0xC0 ≤ c.toNat ∧ c.toNat ≤ 0xDE ∧ c.toNat ≠ 0xD7 then Char.ofNat (c.toNat + 32)
  else c

/-- Character-wise model of `String.prototype.toLowerCase`. -/
def jsToLowerCase (s : String) : String :=
  ⟨s.data.map jsCharToLower⟩

/-- The exact whitespace set of `String.prototype.trim`: tab, line feed,
vertical tab, form feed, carriage return, space, NBSP, and the Unicode
space separators, line/paragraph separators and BOM. -/
def jsIsWhitespace (c : Char) : Bool :=
  decide (c.toNat = 0x09 ∨ c.toNat = 0x0A ∨ c.toNat = 0x0B ∨ c.toNat = 0x0C ∨
    c.toNat = 0x0D ∨ c.toNat = 0x20 ∨ c.toNat = 0xA0 ∨ c.toNat = 0x1680 ∨
    (0x2000 ≤ c.toNat ∧ c.toNat ≤ 0x200A) ∨ c.toNat = 0x2028 ∨ c.toNat = 0x2029 ∨
    c.toNat = 0x202F ∨ c.toNat = 0x205F ∨ c.toNat = 0x3000 ∨ c.toNat = 0xFEFF)

/-- Character-wise model of `String.prototype.trim`: drop JavaScript
whitespace from both ends. -/
def jsTrim (s : String) : String :=
  ⟨((s.data.dropWhile jsIsWhitespace).reverse.dropWhile jsIsWhitespace).reverse⟩

/-- The `responseMap` object literal inside `mapResponseToValue`, as an
association list in source order. -/
def responseMap : List (String × Int) :=
  [("quase sempre", 5),
   ("frequentemente", 4),
   ("metade do tempo", 3),
   ("ocasionalmente", 2),
   ("quase nunca", 1),
   ("não se aplica", 0),
   ("almost always", 5),
   ("frequently", 4),
   ("half the time", 3),
   ("occasionally", 2),
   ("almost never", 1),
   ("does not apply", 0),
   ("always", 5),
   ("rarely", 2),
   ("never", 1)]

/-- Result of the JavaScript property read `responseMap[key]`: either an
own data property (one of the numeric entries of the literal) or a
non-numeric member inherited from `Object.prototype`. -/
inductive JSPropertyRead where
  | ownNumber (v : Int)
  | inheritedObject (name : String)

/-- Model of the property read `responseMap[normalizedResponse]` including
the prototype chain of the object literal. The key is always lowercased by
the caller, and the only `Object.prototype` property names that are
entirely lowercase are "constructor" and the dunder proto accessor; reads
of those return the inherited member (not `undefined`), every other
unrecognised key reads as `undefined`. -/
def responseMapRead (key : String) : Option JSPropertyRead :=
  match responseMap.lookup key with
  | some value => some (JSPropertyRead.ownNumber value)
  | none =>
      if key = "constructor" ∨ key = "__proto__" then some (JSPropertyRead.inheritedObject key)
      else none

/-- Faithful translation of `mapResponseToValue`: normalise the label with
`toLowerCase().trim()`, read the property (prototype chain included), and
throw only when the read is `undefined`. The thrown `Error` is modelled by
the `Except.error` carrying its message. -/
def mapResponseToValueJS (response : String) : Except String JSPropertyRead :=
  let normalizedResponse := jsTrim (jsToLowerCase response)
  match responseMapRead normalizedResponse with
  | some value => Except.ok value
  | none => Except.error ("Invalid response value: \"" ++ response ++
      "\". Expected: quase sempre, frequentemente, metade do tempo, ocasionalmente, quase nunca, não se aplica")

/-- Numeric restriction of `mapResponseToValueJS`, used by the calculator
embedding: it agrees with the faithful translation on every label whose
normalised form is not one of the two reachable `Object.prototype` names
(see `mapResponseToValue_restriction`); on those two the source leaks the
inherited non-numeric member into its declared `number` return type. -/
def mapResponseToValue (response : String) : Except String Int :=
  let normalizedResponse := jsTrim (jsToLowerCase response)
  match responseMap.lookup normalizedResponse with
  | some value => Except.ok value
  | none => Except.error ("Invalid response value: \"" ++ response ++
      "\". Expected: quase sempre, frequentemente, metade do tempo, ocasionalmente, quase nunca, não se aplica")

/-- Translation of the `sectionMap` table: each listed item id maps to its
section; ids 15 and 86 have no entry ("Item 15 exists but is excluded from
scoring", "Item 86 exists but is excluded from scoring"). -/
def sectionMap (itemId : Int) : Option SectionKey :=
  match itemId with
  | 1 | 2 | 3 | 4 | 5 | 6 | 7 | 8 => some .auditoryProcessing
  | 9 | 10 | 11 | 12 | 13 | 14 => some .visualProcessing
  | 16 | 17 | 18 | 19 | 20 | 21 | 22 | 23 | 24 | 25 | 26 => some .tactileProcessing
  | 27 | 28 | 29 | 30 | 31 | 32 | 33 | 34 => some .movementProcessing
  | 35 | 36 | 37 | 38 | 39 | 40 | 41 | 42 => some .bodyPositionProcessing
  | 43 | 44 | 45 | 46 | 47 | 48 | 49 | 50 | 51 | 52 => some .oralSensitivityProcessing
  | 53 | 54 | 55 | 56 | 57 | 58 | 59 | 60 | 61 => some .behavioralResponses
  | 62 | 63 | 64 | 65 | 66 | 67 | 68 | 69 | 70 | 71 | 72 | 73 | 74 | 75 =>
      some .socialEmotionalResponses
  | 76 | 77 | 78 | 79 | 80 | 81 | 82 | 83 | 84 | 85 => some .attentionResponses
  | _ => none

/-- Translation of the `quadrantMap` table (official form colour coding). -/
def quadrantMap (itemId : Int) : Option QuadrantKey :=
  match itemId with
  | 14 | 21 | 22 | 25 | 27 | 28 | 30 | 31 | 32 | 41 | 48 | 49 | 50 | 51 | 55 | 56 | 60 | 82 | 83 =>
      some .sensorySeek
  | 1 | 2 | 5 | 15 | 18 | 58 | 59 | 61 | 63 | 64 | 65 | 66 | 67 | 68 | 70 | 71 | 72 | 74 | 75 | 81 =>
      some .sensoryAvoidance
  | 3 | 6 | 9 | 13 | 16 | 19 | 20 | 44 | 45 | 46 | 47 | 52 | 69 | 73 | 77 | 78 | 84 =>
      some .sensorySensitivity
  | 8 | 12 | 23 | 24 | 26 | 33 | 34 | 35 | 36 | 37 | 38 | 39 | 40 | 53 | 54 | 57 | 62 | 76 | 79 | 80 | 85 | 86 =>
      some .registrationIncreased
  | _ => none

/-- Translation of `validateItemId`; over `Int` the `Number.isInteger`
conjunct holds identically. -/
def validateItemId (itemId : Int) : Bool :=
  decide (1 ≤ itemId) && decide (itemId ≤ 86)

/-- Translation of `isExcludedFromScoring`. -/
def isExcludedFromScoring (itemId : Int) : Bool :=
  itemId == 15 || itemId == 86

/-- Return record of `calculateSectionScores`. -/
structure SectionScoresResult where
  scores : SectionScores
  invalidResponses : List String

/-- Return record of `calculateQuadrantScores`. -/
structure QuadrantScoresResult where
  scores : QuadrantScores
  invalidResponses : List String

/-- The all-zero initial `scores` object of `calculateSectionScores`. -/
def initialSectionScores : SectionScores :=
  { auditoryProcessing := 0
    visualProcessing := 0
    tactileProcessing := 0
    movementProcessing := 0
    bodyPositionProcessing := 0
    oralSensitivityProcessing := 0
    behavioralResponses := 0
    socialEmotionalResponses := 0
    attentionResponses := 0 }

/-- The all-zero initial `scores` object of `calculateQuadrantScores`. -/
def initialQuadrantScores : QuadrantScores :=
  { registrationIncreased := 0
    sensorySeek := 0
    sensorySensitivity := 0
    sensoryAvoidance := 0 }

/-- The statement `scores[section] += value` of `calculateSectionScores`. -/
def addToSection (s : SectionScores) (k : SectionKey) (value : Int) : SectionScores :=
  match k with
  | .auditoryProcessing => { s with auditoryProcessing := s.auditoryProcessing + value }
  | .visualProcessing => { s with visualProcessing := s.visualProcessing + value }
  | .tactileProcessing => { s with tactileProcessing := s.tactileProcessing + value }
  | .movementProcessing => { s with movementProcessing := s.movementProcessing + value }
  | .bodyPositionProcessing => { s with bodyPositionProcessing := s.bodyPositionProcessing + value }
  | .oralSensitivityProcessing =>
      { s with oralSensitivityProcessing := s.oralSensitivityProcessing + value }
  | .behavioralResponses => { s with behavioralResponses := s.behavioralResponses + value }
  | .socialEmotionalResponses =>
      { s with socialEmotionalResponses := s.socialEmotionalResponses + value }
  | .attentionResponses => { s with attentionResponses := s.attentionResponses + value }

/-- The statement `scores[quadrant] += value` of `calculateQuadrantScores`. -/
def addToQuadrant (s : QuadrantScores) (k : QuadrantKey) (value : Int) : QuadrantScores :=
  match k with
  | .registrationIncreased => { s with registrationIncreased := s.registrationIncreased + value }
  | .sensorySeek => { s with sensorySeek := s.sensorySeek + value }
  | .sensorySensitivity => { s with sensorySensitivity := s.sensorySensitivity + value }
  | .sensoryAvoidance => { s with sensoryAvoidance := s.sensoryAvoidance + value }

/-- The body of the `forEach` of `calculateSectionScores`, applied to one
response: id validation, exclusion skip, label mapping (with the `catch`
branch on a mapping failure), the not-applicable skip, and the section
accumulation with the defensive no-section branch. -/
def sectionScoreStep (acc : SectionScoresResult) (r : RawResponse) : SectionScoresResult :=
  if validateItemId r.itemId = false then
    { acc with invalidResponses := acc.invalidResponses ++ ["Invalid item ID: " ++ toString r.itemId] }
  else if isExcludedFromScoring r.itemId then
    acc
  else
    match mapResponseToValue r.response with
    | Except.error msg =>
        { acc with invalidResponses :=
            acc.invalidResponses ++ ["Item " ++ toString r.itemId ++ ": " ++ msg] }
    | Except.ok value =>
        if value = 0 then
          acc
        else
          match sectionMap r.itemId with
          | some sec => { acc with scores := addToSection acc.scores sec value }
          | none =>
              { acc with invalidResponses :=
                  acc.invalidResponses ++ ["No section mapping for item " ++ toString r.itemId] }

/-- Translation of `calculateSectionScores`. -/
def calculateSectionScores (responses : List RawResponse) : SectionScoresResult :=
  responses.foldl sectionScoreStep { scores := initialSectionScores, invalidResponses := [] }

/-- The body of the `forEach` of `calculateQuadrantScores`: id validation,
label mapping (with the `catch` branch), and quadrant accumulation; items
with no quadrant assignment are skipped silently and there is no
section-exclusion skip. -/
def quadrantScoreStep (acc : QuadrantScoresResult) (r : RawResponse) : QuadrantScoresResult :=
  if validateItemId r.itemId = false then
    { acc with invalidResponses := acc.invalidResponses ++ ["Invalid item ID: " ++ toString r.itemId] }
  else
    match mapResponseToValue r.response with
    | Except.error msg =>
        { acc with invalidResponses :=
            acc.invalidResponses ++ ["Item " ++ toString r.itemId ++ ": " ++ msg] }
    | Except.ok value =>
        match quadrantMap r.itemId with
        | some q => { acc with scores := addToQuadrant acc.scores q value }
        | none => acc

/-- Translation of `calculateQuadrantScores`. -/
def calculateQuadrantScores (responses : List RawResponse) : QuadrantScoresResult :=
  responses.foldl quadrantScoreStep { scores := initialQuadrantScores, invalidResponses := [] }

/-- Insertion-order deduplication, the model of `[...new Set(l)]`. -/
def jsSetDedup {α : Type} [BEq α] (l : List α) : List α :=
  l.foldl (fun acc x => if acc.contains x then acc else acc ++ [x]) []

/-- Translation of `calculateScores`: run both calculators, union their
invalid-response messages through a `Set`, and report the counts. -/
def calculateScores (responses : List RawResponse) : AssessmentResults :=
  let sectionResult := calculateSectionScores responses
  let quadrantResult := calculateQuadrantScores responses
  let allInvalidResponses :=
    jsSetDedup (sectionResult.invalidResponses ++ quadrantResult.invalidResponses)
  { sectionScores := sectionResult.scores
    quadrantScores := quadrantResult.scores
    totalItems := responses.length
    validResponses := (responses.length : Int) - allInvalidResponses.length
    invalidResponses := allInvalidResponses }

/-- A `{ min, max }` range record. -/
structure ScoreRange where
  min : Int
  max : Int

/-- The `totalRange` of `getExpectedScoreRanges`. -/
def totalRange : ScoreRange := { min := 84, max := 420 }

/-- The `sectionRanges` object of `getExpectedScoreRanges`, as a lookup on
the section key strings produced by `Object.entries(results.sectionScores)`.
The final catch-all is unreachable for the 9 keys actually looked up. -/
def expectedSectionRange (sec : String) : ScoreRange :=
  if sec = "auditoryProcessing" then { min := 8, max := 40 }
  else if sec = "visualProcessing" then { min := 6, max := 30 }
  else if sec = "tactileProcessing" then { min := 11, max := 55 }
  else if sec = "movementProcessing" then { min := 8, max := 40 }
  else if sec = "bodyPositionProcessing" then { min := 8, max := 40 }
  else if sec = "oralSensitivityProcessing" then { min := 10, max := 50 }
  else if sec = "behavioralResponses" then { min := 9, max := 45 }
  else if sec = "socialEmotionalResponses" then { min := 14, max := 70 }
  else if sec = "attentionResponses" then { min := 10, max := 50 }
  else { min := 0, max := 0 }

/-- The list `Object.entries(results.sectionScores)`: the 9 key/value pairs
in declaration order of the `SectionScores` interface. -/
def sectionEntries (s : SectionScores) : List (String × Int) :=
  [("auditoryProcessing", s.auditoryProcessing),
   ("visualProcessing", s.visualProcessing),
   ("tactileProcessing", s.tactileProcessing),
   ("movementProcessing", s.movementProcessing),
   ("bodyPositionProcessing", s.bodyPositionProcessing),
   ("oralSensitivityProcessing", s.oralSensitivityProcessing),
   ("behavioralResponses", s.behavioralResponses),
   ("socialEmotionalResponses", s.socialEmotionalResponses),
   ("attentionResponses", s.attentionResponses)]

/-- The warning template of `validateScores`:
`${section} score ${score} is outside expected range ${min}-${max}` (also
used with the word "Total" for the total-score warning). -/
def scoreWarning (name : String) (score mn mx : Int) : String :=
  name ++ " score " ++ toString score ++ " is outside expected range " ++
    toString mn ++ "-" ++ toString mx

/-- Translation of `validateScores`: one warning per section whose score is
outside its expected range, then one warning if the section-score total is
outside the total range. -/
def validateScores (results : AssessmentResults) : List String :=
  let warnings := (sectionEntries results.sectionScores).foldl
    (fun acc p =>
      let range := expectedSectionRange p.1
      if p.2 < range.min ∨ p.2 > range.max then
        acc ++ [scoreWarning p.1 p.2 range.min range.max]
      else acc) []
  let totalScore := (sectionEntries results.sectionScores).foldl (fun sum p => sum + p.2) 0
  if totalScore < totalRange.min ∨ totalScore > totalRange.max then
    warnings ++ [scoreWarning "Total" totalScore totalRange.min totalRange.max]
  else warnings

/-- TypeScript interface `ConsistencyCheckResult`. -/
structure ConsistencyCheckResult where
  isValid : Bool
  errors : List String
  warnings : List String
  checkedFields : List String

/-- One entry of the `sectionItemCounts` accumulator of
`validateResponseCompleteness` (name, range bounds, running count). -/
structure SectionCountInfo where
  name : String
  min : Int
  max : Int
  actual : Nat

deriving instance DecidableEq for SectionCountInfo

/-- The initial `sectionItemCounts` object: the nine per-section id ranges
(visualProcessing stops at 14, excluding 15; attentionResponses stops at
85, excluding 86), each with a zero count. -/
def completenessInit : List SectionCountInfo :=
  [{ name := "auditoryProcessing", min := 1, max := 8, actual := 0 },
   { name := "visualProcessing", min := 9, max := 14, actual := 0 },
   { name := "tactileProcessing", min := 16, max := 26, actual := 0 },
   { name := "movementProcessing", min := 27, max := 34, actual := 0 },
   { name := "bodyPositionProcessing", min := 35, max := 42, actual := 0 },
   { name := "oralSensitivityProcessing", min := 43, max := 52, actual := 0 },
   { name := "behavioralResponses", min := 53, max := 61, actual := 0 },
   { name := "socialEmotionalResponses", min := 62, max := 75, actual := 0 },
   { name := "attentionResponses", min := 76, max := 85, actual := 0 }]

/-- The inner loop of the counting phase of `validateResponseCompleteness`:
for one response id, increment every section whose range contains it. -/
def completenessCountStep (counts : List SectionCountInfo) (itemId : Int) : List SectionCountInfo :=
  counts.map (fun info =>
    if info.min ≤ itemId ∧ itemId ≤ info.max then { info with actual := info.actual + 1 }
    else info)

/-- The counting phase of `validateResponseCompleteness` (the nested
`forEach` over responses and sections). The input list holds the item ids
of the responses (`response.getItemId()`). -/
def countResponsesBySection (itemIds : List Int) : List SectionCountInfo :=
  itemIds.foldl completenessCountStep completenessInit

/-- Exact-rational model of `completionPercentage.toFixed(1)` where
`completionPercentage = (actual / expected) * 100`; rounds the permille
value half-up and prints one decimal digit. -/
def toFixed1 (actual expected : Nat) : String :=
  let permille := (actual * 1000 * 2 + expected) / (expected * 2)
  toString (permille / 10) ++ "." ++ toString (permille % 10)

/-- Model of `Array.prototype.indexOf` on an id list. -/
def jsIndexOf : List Int → Int → Int
  | [], _ => -1
  | y :: ys, x =>
      if y = x then 0
      else
        let r := jsIndexOf ys x
        if r = -1 then -1 else r + 1

/-- Translation of `validateResponseCompleteness`: count responses per
section id range, error on empty sections, warn below 75 percent
completion, error on duplicate ids (via `Set` size comparison and the
`indexOf`-based duplicate list), and error on ids outside 1..86. The
`catch` branch of the source is unreachable in this total model. -/
def validateResponseCompleteness (itemIds : List Int) : ConsistencyCheckResult :=
  let counts := countResponsesBySection itemIds
  let base : ConsistencyCheckResult :=
    { isValid := true, errors := [], warnings := [], checkedFields := ["responses"] }
  let afterSections := counts.foldl
    (fun acc info =>
      let expectedCount := (info.max - info.min + 1).toNat
      if info.actual = 0 then
        { acc with
            errors := acc.errors ++ ["No responses found for " ++ info.name ++ " section"]
            isValid := false }
      else if info.actual * 100 < 75 * expectedCount then
        { acc with warnings := acc.warnings ++
            [info.name ++ " section is " ++ toFixed1 info.actual expectedCount ++
              "% complete (" ++ toString info.actual ++ "/" ++ toString expectedCount ++ " items)"] }
      else acc)
    base
  let uniqueIds := jsSetDedup itemIds
  let afterDuplicates :=
    if uniqueIds.length ≠ itemIds.length then
      let duplicates :=
        ((itemIds.enum).filter (fun p => decide (jsIndexOf itemIds p.2 ≠ (p.1 : Int)))).map
          (fun p => p.2)
      { afterSections with
          errors := afterSections.errors ++
            ["Duplicate responses found for items: " ++
              String.intercalate ", " ((jsSetDedup duplicates).map toString)]
          isValid := false }
    else afterSections
  let invalidIds := itemIds.filter (fun id => decide (id < 1 ∨ id > 86))
  if invalidIds.length ≠ 0 then
    { afterDuplicates with
        errors := afterDuplicates.errors ++
          ["Invalid item IDs found: " ++ String.intercalate ", " (invalidIds.map toString)]
        isValid := false }
  else afterDuplicates

/-- Translation of `throwIfInvalid`: the thrown `DataConsistencyError` is
modelled by `Except.error` carrying its message
`${contextPrefix}${validationResult.errors.join('; ')}`. The source's
context test is a truthiness test, so both an absent context and a
supplied empty string produce no prefix. -/
def throwIfInvalid (validationResult : ConsistencyCheckResult) (context : Option String) :
    Except String Unit :=
  if !validationResult.isValid then
    Except.error
      ((match context with
        | some c => if c = "" then "" else c ++ ": "
        | none => "") ++ String.intercalate "; " validationResult.errors)
  else
    Except.ok ()

/-! ## Helper lemmas -/

theorem strDataAppend (a b : String) : (a ++ b).data = a.data ++ b.data := by
  cases a; cases b; rfl

theorem responseMap_lookup_bounds (s : String) (v : Int) (h : responseMap.lookup s = some v) :
    0 ≤ v ∧ v ≤ 5 := by
  simp only [responseMap, List.lookup] at h
  repeat' split at h
  all_goals first
    | exact Option.noConfusion h
    | (injection h with h2; omega)

/-- Restriction lemma: away from the two all-lowercase `Object.prototype`
property names, the numeric restriction `mapResponseToValue` agrees with
the faithful translation `mapResponseToValueJS`, which justifies using the
restriction inside the calculator embedding. -/
theorem mapResponseToValue_restriction (s : String)
    (h1 : jsTrim (jsToLowerCase s) ≠ "constructor")
    (h2 : jsTrim (jsToLowerCase s) ≠ "__proto__") :
    mapResponseToValueJS s = (mapResponseToValue s).map JSPropertyRead.ownNumber := by
  unfold mapResponseToValueJS mapResponseToValue responseMapRead
  cases hl : responseMap.lookup (jsTrim (jsToLowerCase s)) <;>
    simp [hl, h1, h2, Except.map]

/-- C3 (code bug): at the input "constructor" the lowercased, trimmed form
is not a recognised label, yet the property read hits `Object.prototype`,
so the mapper returns the inherited constructor object without throwing,
against its declared numeric return type; the Unicode-aware normalisation
meanwhile does send the mixed-case accented and the NBSP-padded recognised
labels to their numeric values. -/
theorem mapResponseToValueJS_prototype_leak :
    responseMap.lookup (jsTrim (jsToLowerCase "constructor")) = none ∧
    mapResponseToValueJS "constructor" =
      Except.ok (JSPropertyRead.inheritedObject "constructor") ∧
    mapResponseToValueJS "NÃO SE APLICA" = Except.ok (JSPropertyRead.ownNumber 0) ∧
    mapResponseToValueJS "quase sempre\u00A0" = Except.ok (JSPropertyRead.ownNumber 5) ∧
    mapResponseToValue "bogus" = Except.error ("Invalid response value: \"bogus\"" ++
        ". Expected: quase sempre, frequentemente, metade do tempo, ocasionalmente, quase nunca, não se aplica") :=
  ⟨rfl, rfl, rfl, rfl, rfl⟩

theorem sectionMap_isSome_of (id : Int) (h1 : 1 ≤ id) (h2 : id ≤ 86)
    (h3 : id ≠ 15) (h4 : id ≠ 86) : (sectionMap id).isSome = true := by
  interval_cases id <;> first | decide | simp_all

/-- C2 counterexample: the item-to-section map has no entry for id 15 (nor
for id 86), refuting the claim that every id in 1..86, including 15 and 86,
has an entry. -/
theorem sectionMap_missing_excluded : (sectionMap 15).isSome = false ∧
    (sectionMap 86).isSome = false := by decide

/-- C2 amended: the item-to-section map has an entry for every id from 1 to
86 except 15 and 86, which have none. -/
theorem sectionMap_amended (id : Int) (h1 : 1 ≤ id) (h2 : id ≤ 86)
    (h3 : id ≠ 15) (h4 : id ≠ 86) :
    (sectionMap id).isSome = true ∧ sectionMap 15 = none ∧ sectionMap 86 = none :=
  ⟨sectionMap_isSome_of id h1 h2 h3 h4, rfl, rfl⟩

/-- Witness for the amended C2 at id 3. -/
theorem sectionMap_amended_witness :
    ((1 : Int) ≤ 3 ∧ (3 : Int) ≤ 86 ∧ (3 : Int) ≠ 15 ∧ (3 : Int) ≠ 86) ∧
    ((sectionMap 3).isSome = true ∧ sectionMap 15 = none ∧ sectionMap 86 = none) :=
  ⟨by decide, sectionMap_amended 3 (by decide) (by decide) (by decide) (by decide)⟩

/-- C7 counterexample: with a supplied empty-string context and an invalid
one-error result, `throwIfInvalid` raises the unprefixed message "a", not
the message ": a" that prefixing with the supplied context label and ": "
would give: the source's context test is a truthiness test, under which an
empty string counts as absent. -/
theorem throwIfInvalid_empty_context :
    throwIfInvalid { isValid := false, errors := ["a"], warnings := [], checkedFields := [] }
        (some "") = Except.error "a" ∧
    "a" ≠ ": " ++ "a" :=
  ⟨rfl, by decide⟩

/-- C7 amended: `throwIfInvalid` raises exactly when `isValid` is false;
the message is the errors joined by a semicolon separator, prefixed with
the context label and ": " when a non-empty context is supplied (a missing
or empty-string context adds no prefix); a valid result returns normally
whatever its warnings hold. -/
theorem throwIfInvalid_spec (r : ConsistencyCheckResult) (context : Option String) :
    (r.isValid = false →
        throwIfInvalid r context = Except.error
          ((match context with
            | some c => if c = "" then "" else c ++ ": "
            | none => "") ++ String.intercalate "; " r.errors)) ∧
    (r.isValid = true → throwIfInvalid r context = Except.ok ()) ∧
    ((∃ e, throwIfInvalid r context = Except.error e) ↔ r.isValid = false) := by
  cases hr : r.isValid <;>
    simp [throwIfInvalid, hr]

/-- Witness for C7: an invalid two-error result with a non-empty context
raises with the prefixed joined message, one with an empty-string context
raises with the unprefixed joined message, and a valid result with a
warning returns normally. -/
theorem throwIfInvalid_spec_witness :
    throwIfInvalid { isValid := false, errors := ["a", "b"], warnings := ["w"], checkedFields := [] }
        (some "ctx") = Except.error "ctx: a; b" ∧
    throwIfInvalid { isValid := false, errors := ["e1", "e2"], warnings := [], checkedFields := [] }
        (some "") = Except.error "e1; e2" ∧
    throwIfInvalid { isValid := true, errors := [], warnings := ["w"], checkedFields := [] }
        none = Except.ok () := by
  refine ⟨?_, ?_, ?_⟩
  · have h := (throwIfInvalid_spec
      { isValid := false, errors := ["a", "b"], warnings := ["w"], checkedFields := [] }
      (some "ctx")).1 rfl
    rw [h]; rfl
  · have h := (throwIfInvalid_spec
      { isValid := false, errors := ["e1", "e2"], warnings := [], checkedFields := [] }
      (some "")).1 rfl
    rw [h]; rfl
  · exact (throwIfInvalid_spec
      { isValid := true, errors := [], warnings := ["w"], checkedFields := [] } none).2.1 rfl

/-- Shared step lemma: a response with a valid, non-excluded id and an
unrecognised label appends the item-tagged mapper error message in
`calculateSectionScores`. -/
theorem sectionScoreStep_error (acc : SectionScoresResult) (id : Int) (label e : String)
    (hid : validateItemId id = true) (hex : isExcludedFromScoring id = false)
    (hmap : mapResponseToValue label = Except.error e) :
    sectionScoreStep acc ⟨id, label⟩ =
      { acc with invalidResponses :=
          acc.invalidResponses ++ ["Item " ++ toString id ++ ": " ++ e] } := by
  unfold sectionScoreStep
  dsimp only
  rw [if_neg (by simp [hid]), if_neg (by simp [hex]), hmap]

/-- Shared step lemma: a response with a valid id and an unrecognised label
appends the item-tagged mapper error message in `calculateQuadrantScores`. -/
theorem quadrantScoreStep_error (acc : QuadrantScoresResult) (id : Int) (label e : String)
    (hid : validateItemId id = true)
    (hmap : mapResponseToValue label = Except.error e) :
    quadrantScoreStep acc ⟨id, label⟩ =
      { acc with invalidResponses :=
          acc.invalidResponses ++ ["Item " ++ toString id ++ ": " ++ e] } := by
  unfold quadrantScoreStep
  dsimp only
  rw [if_neg (by simp [hid]), hmap]

/-- C4: a single response with item id 15 or 86 and a recognised label of
value v in 1..5 contributes 0 to every section score, and the item-15
response contributes exactly v to the sensoryAvoidance quadrant and 0 to
the other three quadrants. -/
theorem excludedItems_section_zero_quadrant_counts (label : String) (v : Int)
    (hmap : mapResponseToValue label = Except.ok v) (hv1 : 1 ≤ v) (hv5 : v ≤ 5) :
    (calculateSectionScores [⟨15, label⟩]).scores = initialSectionScores ∧
    (calculateSectionScores [⟨86, label⟩]).scores = initialSectionScores ∧
    (calculateQuadrantScores [⟨15, label⟩]).scores =
      { registrationIncreased := 0, sensorySeek := 0, sensorySensitivity := 0,
        sensoryAvoidance := v } := by
  have hq15 : quadrantMap 15 = some QuadrantKey.sensoryAvoidance := rfl
  refine ⟨rfl, rfl, ?_⟩
  show (quadrantScoreStep { scores := initialQuadrantScores, invalidResponses := [] }
      ⟨15, label⟩).scores = _
  unfold quadrantScoreStep
  dsimp only
  rw [if_neg (by decide), hmap, hq15]
  simp [addToQuadrant, initialQuadrantScores]

/-- Witness for C4 at the label "quase sempre" (value 5). -/
theorem excludedItems_section_zero_quadrant_counts_witness :
    (calculateSectionScores [⟨15, "quase sempre"⟩]).scores = initialSectionScores ∧
    (calculateSectionScores [⟨86, "quase sempre"⟩]).scores = initialSectionScores ∧
    (calculateQuadrantScores [⟨15, "quase sempre"⟩]).scores =
      { registrationIncreased := 0, sensorySeek := 0, sensorySensitivity := 0,
        sensoryAvoidance := 5 } :=
  excludedItems_section_zero_quadrant_counts "quase sempre" 5 rfl (by decide) (by decide)

/-- C8: a single response with item id 86 and a recognised label of value v
in 1..5 contributes exactly v to the registrationIncreased quadrant and 0
to the other three quadrants: item 86 carries a quadrant assignment even
though it is excluded from section scoring. -/
theorem item86_registrationIncreased (label : String) (v : Int)
    (hmap : mapResponseToValue label = Except.ok v) (hv1 : 1 ≤ v) (hv5 : v ≤ 5) :
    (calculateQuadrantScores [⟨86, label⟩]).scores =
      { registrationIncreased := v, sensorySeek := 0, sensorySensitivity := 0,
        sensoryAvoidance := 0 } := by
  have hq86 : quadrantMap 86 = some QuadrantKey.registrationIncreased := rfl
  show (quadrantScoreStep { scores := initialQuadrantScores, invalidResponses := [] }
      ⟨86, label⟩).scores = _
  unfold quadrantScoreStep
  dsimp only
  rw [if_neg (by decide), hmap, hq86]
  simp [addToQuadrant, initialQuadrantScores]

/-- Witness for C8 at the label "frequentemente" (value 4). -/
theorem item86_registrationIncreased_witness :
    (calculateQuadrantScores [⟨86, "frequentemente"⟩]).scores =
      { registrationIncreased := 4, sensorySeek := 0, sensorySensitivity := 0,
        sensoryAvoidance := 0 } :=
  item86_registrationIncreased "frequentemente" 4 rfl (by decide) (by decide)

/-- C9: two responses with the same valid non-excluded item id and the same
unrecognised label produce identical error messages in both calculators;
after deduplication `invalidResponses` has length 1 and `validResponses`
is reported as 1 even though neither response was scored. -/
theorem calculateScores_dedup_double_invalid (id : Int) (label e : String)
    (hid : validateItemId id = true) (hex : isExcludedFromScoring id = false)
    (hmap : mapResponseToValue label = Except.error e) :
    (calculateScores [⟨id, label⟩, ⟨id, label⟩]).invalidResponses.length = 1 ∧
    (calculateScores [⟨id, label⟩, ⟨id, label⟩]).validResponses = 1 := by
  have hsec : calculateSectionScores [⟨id, label⟩, ⟨id, label⟩] =
      { scores := initialSectionScores,
        invalidResponses := ["Item " ++ toString id ++ ": " ++ e,
                             "Item " ++ toString id ++ ": " ++ e] } := by
    show sectionScoreStep (sectionScoreStep _ _) _ = _
    rw [sectionScoreStep_error _ id label e hid hex hmap,
        sectionScoreStep_error _ id label e hid hex hmap]
    rfl
  have hquad : calculateQuadrantScores [⟨id, label⟩, ⟨id, label⟩] =
      { scores := initialQuadrantScores,
        invalidResponses := ["Item " ++ toString id ++ ": " ++ e,
                             "Item " ++ toString id ++ ": " ++ e] } := by
    show quadrantScoreStep (quadrantScoreStep _ _) _ = _
    rw [quadrantScoreStep_error _ id label e hid hmap,
        quadrantScoreStep_error _ id label e hid hmap]
    rfl
  unfold calculateScores
  rw [hsec, hquad]
  simp [jsSetDedup]

/-- Witness for C9 at id 1 and the unrecognised label "bogus". -/
theorem calculateScores_dedup_double_invalid_witness :
    (calculateScores [⟨1, "bogus"⟩, ⟨1, "bogus"⟩]).invalidResponses.length = 1 ∧
    (calculateScores [⟨1, "bogus"⟩, ⟨1, "bogus"⟩]).validResponses = 1 :=
  calculateScores_dedup_double_invalid 1 "bogus"
    ("Invalid response value: \"bogus\". Expected: quase sempre, frequentemente, metade do tempo, ocasionalmente, quase nunca, não se aplica")
    (by decide) (by decide) rfl

/-- C10: a response with item id 15 or 86 and an unrecognised label is
reported by the quadrant calculator but not by the section calculator
(whose exclusion skip precedes label mapping); `calculateScores` therefore
carries exactly one message for it and reduces `validResponses` to 0. -/
theorem excluded_item_invalid_label (id : Int) (label e : String) (hid : id = 15 ∨ id = 86)
    (hmap : mapResponseToValue label = Except.error e) :
    (calculateSectionScores [⟨id, label⟩]).invalidResponses = [] ∧
    (calculateQuadrantScores [⟨id, label⟩]).invalidResponses =
      ["Item " ++ toString id ++ ": " ++ e] ∧
    (calculateScores [⟨id, label⟩]).invalidResponses = ["Item " ++ toString id ++ ": " ++ e] ∧
    (calculateScores [⟨id, label⟩]).validResponses = 0 := by
  have hvalid : validateItemId id = true := by rcases hid with h | h <;> subst h <;> decide
  have hsec : calculateSectionScores [⟨id, label⟩] =
      { scores := initialSectionScores, invalidResponses := [] } := by
    rcases hid with h | h <;> subst h <;> rfl
  have hquad : calculateQuadrantScores [⟨id, label⟩] =
      { scores := initialQuadrantScores,
        invalidResponses := ["Item " ++ toString id ++ ": " ++ e] } := by
    show quadrantScoreStep _ _ = _
    rw [quadrantScoreStep_error _ id label e hvalid hmap]
    simp
  refine ⟨by rw [hsec], by rw [hquad], ?_, ?_⟩ <;>
    · unfold calculateScores
      rw [hsec, hquad]
      simp [jsSetDedup]

/-- Witness for C10 at id 15 and the unrecognised label "bogus". -/
theorem excluded_item_invalid_label_witness :
    (calculateSectionScores [⟨15, "bogus"⟩]).invalidResponses = [] ∧
    (calculateQuadrantScores [⟨15, "bogus"⟩]).invalidResponses =
      ["Item " ++ toString (15 : Int) ++ ": " ++
        "Invalid response value: \"bogus\". Expected: quase sempre, frequentemente, metade do tempo, ocasionalmente, quase nunca, não se aplica"] ∧
    (calculateScores [⟨15, "bogus"⟩]).invalidResponses =
      ["Item " ++ toString (15 : Int) ++ ": " ++
        "Invalid response value: \"bogus\". Expected: quase sempre, frequentemente, metade do tempo, ocasionalmente, quase nunca, não se aplica"] ∧
    (calculateScores [⟨15, "bogus"⟩]).validResponses = 0 :=
  excluded_item_invalid_label 15 "bogus"
    ("Invalid response value: \"bogus\". Expected: quase sempre, frequentemente, metade do tempo, ocasionalmente, quase nunca, não se aplica")
    (Or.inl rfl) rfl

/-- Shared invariant: every message `calculateSectionScores` records starts
with the character I (both the invalid-id and the item-tagged mapper
messages do), which the step function preserves. -/
theorem sectionScoreStep_message_head (acc : SectionScoresResult) (r : RawResponse)
    (h : ∀ m ∈ acc.invalidResponses, m.data.head? = some 'I') :
    ∀ m ∈ (sectionScoreStep acc r).invalidResponses, m.data.head? = some 'I' := by
  intro m hm
  unfold sectionScoreStep at hm
  by_cases h1 : validateItemId r.itemId = false
  · rw [if_pos h1] at hm
    dsimp only at hm
    rcases List.mem_append.1 hm with h2 | h2
    · exact h m h2
    · have hem : m = "Invalid item ID: " ++ toString r.itemId := by simpa using h2
      rw [hem, strDataAppend]; rfl
  · rw [if_neg h1] at hm
    by_cases h2 : isExcludedFromScoring r.itemId = true
    · rw [if_pos h2] at hm; exact h m hm
    · rw [if_neg h2] at hm
      rcases hmv : mapResponseToValue r.response with msg | value <;> rw [hmv] at hm
      · dsimp only at hm
        rcases List.mem_append.1 hm with h3 | h3
        · exact h m h3
        · have hem : m = "Item " ++ toString r.itemId ++ ": " ++ msg := by simpa using h3
          rw [hem, strDataAppend, strDataAppend, strDataAppend]; rfl
      · dsimp only at hm
        by_cases h3 : value = 0
        · rw [if_pos h3] at hm; exact h m hm
        · rw [if_neg h3] at hm
          have hv : validateItemId r.itemId = true := by
            revert h1; cases validateItemId r.itemId <;> simp
          have hb : 1 ≤ r.itemId ∧ r.itemId ≤ 86 := by
            unfold validateItemId at hv; simpa using hv
          have hx : r.itemId ≠ 15 ∧ r.itemId ≠ 86 := by
            have hexf : isExcludedFromScoring r.itemId = false := by
              revert h2; cases isExcludedFromScoring r.itemId <;> simp
            unfold isExcludedFromScoring at hexf
            simpa using hexf
          obtain ⟨k, hk⟩ := Option.isSome_iff_exists.1
            (sectionMap_isSome_of r.itemId hb.1 hb.2 hx.1 hx.2)
          rw [hk] at hm
          dsimp only at hm
          exact h m hm

/-- Every invalid-response message of `calculateSectionScores` starts with
the character I. -/
theorem calculateSectionScores_messages (responses : List RawResponse) :
    ∀ m ∈ (calculateSectionScores responses).invalidResponses, m.data.head? = some 'I' := by
  have key : ∀ (rs : List RawResponse) (acc : SectionScoresResult),
      (∀ m ∈ acc.invalidResponses, m.data.head? = some 'I') →
      ∀ m ∈ (rs.foldl sectionScoreStep acc).invalidResponses, m.data.head? = some 'I' := by
    intro rs
    induction rs with
    | nil => intro acc h; simpa using h
    | cons r rs ih =>
        intro acc h
        rw [List.foldl_cons]
        exact ih _ (sectionScoreStep_message_head acc r h)
  exact key responses _ (by simp)

/-- C5: `calculateSectionScores` never records a message of the form
"No section mapping for item <id>": excluded ids are skipped before the
section lookup and every other valid id has a section entry, so the
defensive branch is unreachable. -/
theorem noSectionMapping_unreachable (responses : List RawResponse) (m : String)
    (hm : m ∈ (calculateSectionScores responses).invalidResponses) (id : Int) :
    m ≠ "No section mapping for item " ++ toString id := by
  intro he
  have h := calculateSectionScores_messages responses m hm
  rw [he, strDataAppend] at h
  have h2 : (("No section mapping for item ").data ++ (toString id).data).head? = some 'N' := rfl
  rw [h2] at h
  exact absurd h (by decide)

/-- Witness for C5: a recorded invalid-id message on a concrete input list
differs from the no-section-mapping message. -/
theorem noSectionMapping_unreachable_witness :
    ("Invalid item ID: " ++ toString (0 : Int)) ∈
      (calculateSectionScores [⟨0, "x"⟩]).invalidResponses ∧
    ("Invalid item ID: " ++ toString (0 : Int)) ≠
      "No section mapping for item " ++ toString (0 : Int) :=
  ⟨by decide, noSectionMapping_unreachable [⟨0, "x"⟩] _ (by decide) 0⟩

/-- Specification-side sum of the nine section scores, used to state C6. -/
def sectionScoresTotal (s : SectionScores) : Int :=
  s.auditoryProcessing + s.visualProcessing + s.tactileProcessing + s.movementProcessing +
  s.bodyPositionProcessing + s.oralSensitivityProcessing + s.behavioralResponses +
  s.socialEmotionalResponses + s.attentionResponses

theorem validateScores_fold (l : List (String × Int)) (acc : List String) :
    l.foldl (fun acc p =>
        let range := expectedSectionRange p.1
        if p.2 < range.min ∨ p.2 > range.max then
          acc ++ [scoreWarning p.1 p.2 range.min range.max]
        else acc) acc
      = acc ++ (l.filter (fun p =>
            decide (p.2 < (expectedSectionRange p.1).min ∨ p.2 > (expectedSectionRange p.1).max))).map
          (fun p => scoreWarning p.1 p.2 (expectedSectionRange p.1).min (expectedSectionRange p.1).max) := by
  induction l generalizing acc with
  | nil => simp
  | cons p l ih =>
      rw [List.foldl_cons]
      dsimp only
      by_cases hc : p.2 < (expectedSectionRange p.1).min ∨ p.2 > (expectedSectionRange p.1).max
      · rw [if_pos hc, ih]
        simp [List.filter_cons, hc]
      · rw [if_neg hc, ih]
        simp [List.filter_cons, hc]

theorem sectionEntries_total (s : SectionScores) :
    (sectionEntries s).foldl (fun sum p => sum + p.2) 0 = sectionScoresTotal s := by
  simp [sectionEntries, sectionScoresTotal]

theorem filter_map_cons {α β : Type} (f : α → Bool) (g : α → β) (p : α) (l : List α) :
    ((p :: l).filter f).map g = (if f p = true then [g p] else []) ++ (l.filter f).map g := by
  by_cases h : f p = true <;> simp [List.filter_cons, h]

theorem append_ite (c : Prop) [Decidable c] (w : List String) (x : String) :
    (if c then w ++ [x] else w) = w ++ (if c then [x] else []) := by
  split <;> simp

/-- C6: `validateScores` returns exactly one warning, naming the section and
both bounds, for each of the 9 sections whose score is strictly outside its
fixed range, plus one warning when the section-score total is outside
84..420, and nothing else; it never raises. -/
theorem validateScores_spec (results : AssessmentResults) :
    validateScores results =
      (if results.sectionScores.auditoryProcessing < 8 ∨ results.sectionScores.auditoryProcessing > 40
       then [scoreWarning "auditoryProcessing" results.sectionScores.auditoryProcessing 8 40] else [])
      ++ (if results.sectionScores.visualProcessing < 6 ∨ results.sectionScores.visualProcessing > 30
       then [scoreWarning "visualProcessing" results.sectionScores.visualProcessing 6 30] else [])
      ++ (if results.sectionScores.tactileProcessing < 11 ∨ results.sectionScores.tactileProcessing > 55
       then [scoreWarning "tactileProcessing" results.sectionScores.tactileProcessing 11 55] else [])
      ++ (if results.sectionScores.movementProcessing < 8 ∨ results.sectionScores.movementProcessing > 40
       then [scoreWarning "movementProcessing" results.sectionScores.movementProcessing 8 40] else [])
      ++ (if results.sectionScores.bodyPositionProcessing < 8 ∨ results.sectionScores.bodyPositionProcessing > 40
       then [scoreWarning "bodyPositionProcessing" results.sectionScores.bodyPositionProcessing 8 40] else [])
      ++ (if results.sectionScores.oralSensitivityProcessing < 10 ∨ results.sectionScores.oralSensitivityProcessing > 50
       then [scoreWarning "oralSensitivityProcessing" results.sectionScores.oralSensitivityProcessing 10 50] else [])
      ++ (if results.sectionScores.behavioralResponses < 9 ∨ results.sectionScores.behavioralResponses > 45
       then [scoreWarning "behavioralResponses" results.sectionScores.behavioralResponses 9 45] else [])
      ++ (if results.sectionScores.socialEmotionalResponses < 14 ∨ results.sectionScores.socialEmotionalResponses > 70
       then [scoreWarning "socialEmotionalResponses" results.sectionScores.socialEmotionalResponses 14 70] else [])
      ++ (if results.sectionScores.attentionResponses < 10 ∨ results.sectionScores.attentionResponses > 50
       then [scoreWarning "attentionResponses" results.sectionScores.attentionResponses 10 50] else [])
      ++ (if sectionScoresTotal results.sectionScores < 84 ∨ sectionScoresTotal results.sectionScores > 420
       then [scoreWarning "Total" (sectionScoresTotal results.sectionScores) 84 420] else []) := by
  have r1 : expectedSectionRange "auditoryProcessing" = { min := 8, max := 40 } := rfl
  have r2 : expectedSectionRange "visualProcessing" = { min := 6, max := 30 } := rfl
  have r3 : expectedSectionRange "tactileProcessing" = { min := 11, max := 55 } := rfl
  have r4 : expectedSectionRange "movementProcessing" = { min := 8, max := 40 } := rfl
  have r5 : expectedSectionRange "bodyPositionProcessing" = { min := 8, max := 40 } := rfl
  have r6 : expectedSectionRange "oralSensitivityProcessing" = { min := 10, max := 50 } := rfl
  have r7 : expectedSectionRange "behavioralResponses" = { min := 9, max := 45 } := rfl
  have r8 : expectedSectionRange "socialEmotionalResponses" = { min := 14, max := 70 } := rfl
  have r9 : expectedSectionRange "attentionResponses" = { min := 10, max := 50 } := rfl
  unfold validateScores
  rw [validateScores_fold, sectionEntries_total]
  rw [append_ite]
  simp only [sectionEntries, filter_map_cons, List.filter_nil, List.map_nil, r1, r2, r3, r4, r5, r6, r7, r8, r9, decide_eq_true_eq, List.nil_append, List.append_nil, List.append_assoc, totalRange]

/-- The counting fold of `validateResponseCompleteness` adds, to each
section entry, the number of response ids inside that entry's range. -/
theorem completenessCount_foldl (itemIds : List Int) :
    ∀ acc : List SectionCountInfo,
      itemIds.foldl completenessCountStep acc
        = acc.map (fun info => { info with
            actual := info.actual + itemIds.countP (fun id => decide (info.min ≤ id ∧ id ≤ info.max)) }) := by
  induction itemIds with
  | nil =>
      intro acc
      have hfun : (fun (info : SectionCountInfo) => { info with
          actual := info.actual + ([] : List Int).countP (fun id => decide (info.min ≤ id ∧ id ≤ info.max)) }) = fun info => info := by
        funext info
        simp [List.countP_nil]
      rw [List.foldl_nil, hfun]
      simp
  | cons id ids ih =>
      intro acc
      rw [List.foldl_cons, ih, completenessCountStep, List.map_map]
      have hfun : ((fun (info : SectionCountInfo) => { info with
            actual := info.actual + ids.countP (fun i => decide (info.min ≤ i ∧ i ≤ info.max)) }) ∘
          (fun info => if info.min ≤ id ∧ id ≤ info.max then
            { info with actual := info.actual + 1 } else info)) =
          fun info => { info with
            actual := info.actual + (id :: ids).countP (fun i => decide (info.min ≤ i ∧ i ≤ info.max)) } := by
        funext info
        by_cases hc : info.min ≤ id ∧ id ≤ info.max <;>
          simp [Function.comp, hc, List.countP_cons] <;> omega
      rw [hfun]

/-- C1 amended: a response is counted toward a section's completeness count
exactly when its id lies in that section's listed range, and those ranges
exclude ids 15 and 86, so a response with item id 15 or 86 increments no
section's count; in particular the input list holding only a response with
item id 15 produces the error "No responses found for visualProcessing
section". -/
theorem responseCompleteness_amended :
    (∀ itemIds : List Int, countResponsesBySection itemIds
        = completenessInit.map (fun info => { info with
            actual := itemIds.countP (fun id => decide (info.min ≤ id ∧ id ≤ info.max)) })) ∧
    countResponsesBySection [15] = completenessInit ∧
    countResponsesBySection [86] = completenessInit ∧
    "No responses found for visualProcessing section" ∈ (validateResponseCompleteness [15]).errors := by
  refine ⟨?_, by decide, by decide, by decide⟩
  intro itemIds
  rw [countResponsesBySection, completenessCount_foldl itemIds completenessInit]
  simp [completenessInit]

/-- C1 counterexample: for the input list holding only a response with item
id 15, the completeness result does contain the error "No responses found
for visualProcessing section", contradicting the claim that item 15 counts
toward visualProcessing and suppresses that error. -/
theorem completeness_item15_visual_error :
    "No responses found for visualProcessing section" ∈
      (validateResponseCompleteness [15]).errors := by decide
